import Mathlib

/-!
Verification of the snapshot-diff anomaly classifier and position engine of
the `stocktrade` repository.

The embedding models, faithfully to the Python source:
* `find_outliers_by_oi_new.py` — `compute_outliers` (per merged contract row),
* `find_outliers_by_volume.py` — `compute_volume_outliers` (per merged row),
* `trade_stock.py` — `StockTrader.analyze_signals` and the sell decision in
  `StockTrader.process_trading_signals`,
* `rules/signal_classification_rules.py` — the excluded-label list.

Numeric columns are modelled as rationals.  Where the pandas code can
produce non-finite floats (division by zero before `fillna`), values are
modelled by `PVal`, which distinguishes finite values, the two infinities
and NaN, with IEEE comparison semantics.
-/

/-- A pandas float cell: finite rational, +inf, -inf, or NaN. -/
inductive PVal where
  | fin (q : ℚ)
  | posinf
  | neginf
  | nan
deriving DecidableEq, Repr

/-- IEEE / pandas division of finite floats: `num / den`.  Division by zero
gives ±inf for a nonzero numerator and NaN for `0 / 0`. -/
def pandasDiv (num den : ℚ) : PVal :=
  if den ≠ 0 then .fin (num / den)
  else if num = 0 then .nan
  else if num > 0 then .posinf
  else .neginf

/-- `Series.fillna(0)`: NaN becomes 0; infinities are NOT replaced. -/
def PVal.fillna0 : PVal → PVal
  | .nan => .fin 0
  | v => v

/-- Multiplication by the positive constant 100 (used for percent scaling). -/
def PVal.mul100 : PVal → PVal
  | .fin q => .fin (q * 100)
  | .posinf => .posinf
  | .neginf => .neginf
  | .nan => .nan

/-- IEEE `>` against a finite constant (NaN compares false). -/
def PVal.gtQ : PVal → ℚ → Bool
  | .fin q, c => q > c
  | .posinf, _ => true
  | .neginf, _ => false
  | .nan, _ => false

/-- IEEE `<` against a finite constant (NaN compares false). -/
def PVal.ltQ : PVal → ℚ → Bool
  | .fin q, c => q < c
  | .posinf, _ => false
  | .neginf, _ => true
  | .nan, _ => false

/-- IEEE `≥` against a finite constant (NaN compares false). -/
def PVal.geQ : PVal → ℚ → Bool
  | .fin q, c => q ≥ c
  | .posinf, _ => true
  | .neginf, _ => false
  | .nan, _ => false

/-- IEEE `≤` against a finite constant (NaN compares false). -/
def PVal.leQ : PVal → ℚ → Bool
  | .fin q, c => q ≤ c
  | .posinf, _ => false
  | .neginf, _ => true
  | .nan, _ => false

/-- `(lastPrice_new - lastPrice_old) / lastPrice_old` followed by
`fillna(0)`, exactly as both outlier variants compute
`option_price_change` (find_outliers_by_oi_new.py lines 248-249 and
find_outliers_by_volume.py lines 322-323). -/
def optionPriceChange (pnew pold : ℚ) : PVal :=
  (pandasDiv (pnew - pold) pold).fillna0

/-! ## Open-interest variant: `compute_outliers` per merged row -/

/-- One merged contract row of the OI variant, after numeric coercion and
`fillna(0)` of the input columns.  `stockChange` is the entry of the
`stock_price_changes` map for the row's symbol (computed with the
`prev_close != 0` guard, hence finite), or 0 when the symbol is absent. -/
structure OiRow where
  optionType : String
  stockChange : ℚ
  lastPriceNew : ℚ
  lastPriceOld : ℚ
  oiNew : ℚ
  oiOld : ℚ
deriving DecidableEq, Repr

/-- `oi_change = openInterest_new - openInterest_old`. -/
def oiChange (r : OiRow) : ℚ := r.oiNew - r.oiOld

/-- The row's `option_price_change`. -/
def oiOptionChange (r : OiRow) : PVal :=
  optionPriceChange r.lastPriceNew r.lastPriceOld

/-- `amount_threshold = |oi_change| * lastPrice_new * 100`. -/
def amountThresholdOi (r : OiRow) : ℚ :=
  |oiChange r| * r.lastPriceNew * 100

/-- The eight-branch signal table of `compute_outliers`
(find_outliers_by_oi_new.py lines 300-325), given the direction flags. -/
def oiSignal (t : String) (su sd ou od up down : Bool) : Option String :=
  if t = "CALL" then
    if su && ou && up then some "多头买 Call，看涨"
    else if sd && od && up then some "空头卖 Call，看跌/看不涨"
    else if su && ou && down then some "空头平仓 Call，回补信号，看涨"
    else if sd && od && down then some "多头平仓 Call，减仓，看涨减弱"
    else none
  else if t = "PUT" then
    if sd && ou && up then some "多头买 Put，看跌"
    else if su && od && up then some "空头卖 Put，看涨/看不跌"
    else if sd && ou && down then some "空头平仓 Put，回补，看跌信号减弱"
    else if su && od && down then some "多头平仓 Put，减仓，看跌减弱"
    else none
  else none

/-- One iteration of the per-row loop of `compute_outliers`
(find_outliers_by_oi_new.py lines 265-339): direction flags with the
significant-ΔOI relaxation, the strict 5,000,000 amount gate, then the
signal table.  Returns the emitted signal label, or `none` when the row is
skipped or matches no branch. -/
def computeOiRow (r : OiRow) : Option String :=
  if amountThresholdOi r ≤ 5000000 then none
  else oiSignal r.optionType
    (decide (r.stockChange > 1/100))
    (decide (r.stockChange < -(1/100)))
    (if 1000 < |oiChange r| then (oiOptionChange r).geQ 0
     else (oiOptionChange r).gtQ (5/100))
    (if 1000 < |oiChange r| then (oiOptionChange r).leQ 0
     else (oiOptionChange r).ltQ (-(5/100)))
    (decide (oiChange r > 0))
    (decide (oiChange r < 0))

/-! ## Volume variant: `compute_volume_outliers` per merged row -/

/-- One merged contract row of the volume variant.  `marketCap` is the
row's `market_cap` column: the mapped market-cap value, or 0 when the
symbol is absent from the table or the table is missing/invalid
(find_outliers_by_volume.py lines 328-333). -/
structure VolRow where
  optionType : String
  stockChange : ℚ
  lastPriceNew : ℚ
  lastPriceOld : ℚ
  volumeNew : ℚ
  volumeOld : ℚ
  marketCap : ℚ
deriving DecidableEq, Repr

/-- `volume_change = volume_new - volume_old` (same formula in the same-day
and cross-day branches, find_outliers_by_volume.py lines 312 and 320). -/
def volumeChange (r : VolRow) : ℚ := r.volumeNew - r.volumeOld

/-- `volume_change_pct` (find_outliers_by_volume.py lines 310-321).
Cross-day: 100 when `volume_old == 0 and volume_new > 0`, the ordinary
percentage when `volume_old > 0`, else 0 — always finite.  Same-day:
`(volume_change / volume_old * 100).fillna(0)`, which leaves an infinity
behind when `volume_old == 0` and `volume_change ≠ 0`. -/
def volumeChangePct (isCrossDay : Bool) (r : VolRow) : PVal :=
  if isCrossDay then
    .fin (if r.volumeOld = 0 ∧ r.volumeNew > 0 then 100
          else if r.volumeOld > 0 then volumeChange r / r.volumeOld * 100
          else 0)
  else ((pandasDiv (volumeChange r) r.volumeOld).mul100).fillna0

/-- The row's `option_price_change` in the volume variant. -/
def volOptionChange (r : VolRow) : PVal :=
  optionPriceChange r.lastPriceNew r.lastPriceOld

/-- `amount_threshold = |volume_change| * lastPrice_new * 100`
(find_outliers_by_volume.py lines 356-358). -/
def amountThresholdVol (r : VolRow) : ℚ :=
  |volumeChange r| * r.lastPriceNew * 100

/-- The eight-branch signal table of `compute_volume_outliers`
(find_outliers_by_volume.py lines 382-407), given the direction flags. -/
def volSignal (t : String) (su sd ou od vu : Bool) : Option String :=
  if t = "CALL" then
    if su && ou && vu then some "买 Call，看涨"
    else if su && od && vu then some "卖 Call，看空/价差对冲"
    else if sd && ou && vu then some "买 Call平仓/做波动率交易"
    else if sd && od && vu then some "卖 Call，看跌"
    else none
  else if t = "PUT" then
    if sd && ou && vu then some "买 Put，看跌"
    else if sd && od && vu then some "卖 Put，看涨/对冲"
    else if su && ou && vu then some "买 Put平仓/做波动率交易"
    else if su && od && vu then some "卖 Put，看涨"
    else none
  else none

/-- Per-row processing of `compute_volume_outliers`
(find_outliers_by_volume.py lines 301-438): the cross-day identical-volume
drop, the base filters (`volume_new > 3000`, `volume_change_pct > 30`),
the strict 2,000,000 amount gate, the cross-day market-cap ratio gate
(applied only when `volume_old == 0` AND `market_cap > 0`), then the
signal table.  Returns the emitted signal label, or `none`. -/
def computeVolRow (isCrossDay : Bool) (capRatioLimit : ℚ) (r : VolRow) : Option String :=
  if isCrossDay ∧ r.volumeNew = r.volumeOld then none
  else if r.volumeNew ≤ 3000 then none
  else if (volumeChangePct isCrossDay r).leQ 30 then none
  else if amountThresholdVol r ≤ 2000000 then none
  else if r.volumeOld = 0 ∧ r.marketCap > 0 ∧
          amountThresholdVol r / r.marketCap ≤ capRatioLimit then none
  else
    volSignal r.optionType
      (decide (r.stockChange > 1/100))
      (decide (r.stockChange < -(1/100)))
      ((volOptionChange r).gtQ (5/100))
      ((volOptionChange r).ltQ (-(5/100)))
      (decide (volumeChange r > 0))

/-! ## Tiering -/

/-- `_amount_tier` (identical in find_outliers_by_oi_new.py lines 366-373
and find_outliers_by_volume.py lines 448-455). -/
def amountTier (x : ℚ) : String :=
  if x ≤ 5000000 then "<=5M"
  else if x ≤ 10000000 then "5M-10M"
  else if x ≤ 50000000 then "10M-50M"
  else ">50M"

/-- Index of the tier a value falls in (0 = lowest), used to state
monotonicity of the step function `amountTier`. -/
def tierIdx (x : ℚ) : ℕ :=
  if x ≤ 5000000 then 0
  else if x ≤ 10000000 then 1
  else if x ≤ 50000000 then 2
  else 3

/-- The four tier labels, in increasing order. -/
def tierName : ℕ → String
  | 0 => "<=5M"
  | 1 => "5M-10M"
  | 2 => "10M-50M"
  | _ => ">50M"

/-! ## Position engine: `trade_stock.py` -/

/-- Boolean substring containment on character lists (Python `in`). -/
def containsSub (needle hay : List Char) : Bool :=
  hay.tails.any (fun t => needle.isPrefixOf t)

/-- `str.lower()` on the characters of a string (ASCII lowering; the
labels involved contain only ASCII letters besides CJK characters, which
both Python and this model leave unchanged). -/
def lowerStr (s : String) : String := String.mk (s.data.map Char.toLower)

/-- The bullish test of `StockTrader.analyze_signals`
(trade_stock.py line 249): `'看涨' in signal_type or 'bullish' in
signal_type.lower()`. -/
def bullishHit (st : String) : Bool :=
  containsSub "看涨".data st.data || containsSub "bullish".data (lowerStr st).data

/-- The bearish test of `StockTrader.analyze_signals`
(trade_stock.py line 251). -/
def bearishHit (st : String) : Bool :=
  containsSub "看跌".data st.data || containsSub "bearish".data (lowerStr st).data

/-- The (bullish, bearish) increments one record contributes in
`analyze_signals`: the bullish test first, `elif` the bearish test. -/
def signalIncrements (st : String) : ℕ × ℕ :=
  if bullishHit st then (1, 0)
  else if bearishHit st then (0, 1)
  else (0, 0)

/-- `StockTrader.analyze_signals` (trade_stock.py lines 234-274) over the
concatenated rows of the OI and volume outlier files, as a map from symbol
to its (bullish, bearish) counts.  Rows with an empty symbol or an empty
signal type are skipped (`if symbol and signal_type`). -/
def analyzeSignals (rows : List (String × String)) : String → ℕ × ℕ :=
  rows.foldl
    (fun acc row =>
      if row.1 ≠ "" ∧ row.2 ≠ "" then
        fun s => if s = row.1 then
            ((acc s).1 + (signalIncrements row.2).1,
             (acc s).2 + (signalIncrements row.2).2)
          else acc s
      else acc)
    (fun _ => (0, 0))

/-- The per-holding sell decision of `StockTrader.process_trading_signals`
(trade_stock.py lines 443-476).  `some (bullish, bearish)` when the held
symbol appears in this cycle's signal map, `none` otherwise (in which case
only the 24-hour time stop applies). -/
def shouldSellDecision (sig : Option (ℕ × ℕ)) (hoursHeld : ℚ) : Bool :=
  match sig with
  | some (bullish, bearish) =>
    if bullish > 0 ∧ bearish > 0 then
      if bearish ≥ 3 then true
      else if bullish > bearish then false
      else true
    else if bearish > 0 ∧ bullish = 0 then true
    else false
  | none => decide (hoursHeld > 24)

/-! ## Helper lemmas -/

/-- Without a stock direction, no OI branch fires. -/
theorem oiSignal_no_stock (t : String) (ou od u d : Bool) :
    oiSignal t false false ou od u d = none := by
  simp [oiSignal]

/-- Without an option-price direction, no OI branch fires. -/
theorem oiSignal_no_option (t : String) (su sd u d : Bool) :
    oiSignal t su sd false false u d = none := by
  simp [oiSignal]

/-- `fillna(0)` never returns NaN. -/
theorem fillna0_ne_nan (v : PVal) : v.fillna0 ≠ .nan := by
  cases v <;> simp [PVal.fillna0]

/-- `volume_change_pct` is never NaN (the same-day branch ends in
`fillna(0)`, the cross-day branch is always finite). -/
theorem volumeChangePct_ne_nan (cd : Bool) (r : VolRow) :
    volumeChangePct cd r ≠ .nan := by
  unfold volumeChangePct
  split
  · simp
  · exact fillna0_ne_nan _

/-- A non-NaN value that fails `≤ c` satisfies `> c`. -/
theorem leQ_false_gtQ (v : PVal) (c : ℚ) (hn : v ≠ .nan)
    (h : v.leQ c = false) : v.gtQ c = true := by
  cases v with
  | fin q =>
    simp [PVal.leQ] at h
    simpa [PVal.gtQ] using h
  | posinf => simp [PVal.gtQ]
  | neginf => simp [PVal.leQ] at h
  | nan => exact absurd rfl hn

/-! ## Claims -/

/-- C1 counterexample: a record labelled with the excluded put short-cover
signal "空头平仓 Put，回补，看跌信号减弱" does NOT contribute to neither
count — `analyze_signals` counts it as one bearish signal for its symbol,
because the label contains the substring "看跌". -/
theorem analyzeSignals_excluded_put_label_counts_bearish :
    analyzeSignals [("TSLA", "空头平仓 Put，回补，看跌信号减弱")] "TSLA"
      = (0, 1) := by
  decide

/-- C1 (amended): `analyze_signals` tallies by substring matching, not by
the not-countable label set: a label containing "看涨" counts as bullish,
otherwise a label containing "看跌" counts as bearish.  Hence among the
three excluded labels, the put short-cover label "空头平仓 Put，回补，看跌
信号减弱" contributes one bearish count, while the two volatility/closing
labels "买 Call平仓/做波动率交易" and "买 Put平仓/做波动率交易" (which
contain neither substring) contribute to neither count. -/
theorem analyzeSignals_substring_tallies :
    signalIncrements "空头平仓 Put，回补，看跌信号减弱" = (0, 1) ∧
    bearishHit "空头平仓 Put，回补，看跌信号减弱" = true ∧
    bullishHit "空头平仓 Put，回补，看跌信号减弱" = false ∧
    signalIncrements "买 Call平仓/做波动率交易" = (0, 0) ∧
    signalIncrements "买 Put平仓/做波动率交易" = (0, 0) ∧
    analyzeSignals [("AAPL", "空头平仓 Put，回补，看跌信号减弱"),
                    ("AAPL", "买 Call平仓/做波动率交易"),
                    ("AAPL", "买 Put平仓/做波动率交易")] "AAPL" = (0, 1) := by
  decide

/-- C2 counterexample: a cross-day volume record with `volume_old = 0` and
unknown market cap (`market_cap = 0`) is NOT rejected: it passes the
ThresholdFilter (the ratio gate is skipped because `market_cap > 0` is
false) and is emitted as a classified outlier. -/
theorem computeVolRow_unknown_marketcap_emitted :
    computeVolRow true (1/100000)
      { optionType := "CALL", stockChange := 2/100, lastPriceNew := 10,
        lastPriceOld := 1, volumeNew := 4000, volumeOld := 0, marketCap := 0 }
      = some "买 Call，看涨" := by
  norm_num [computeVolRow, volumeChangePct, volumeChange, volOptionChange,
    optionPriceChange, pandasDiv, PVal.mul100, PVal.fillna0, PVal.leQ,
    PVal.gtQ, PVal.ltQ, amountThresholdVol, volSignal]

/-- C3 counterexample: in a cross-day run a contract with
`volume_old = 5, volume_new = 4010` is emitted with
`volume_change = 4005 ≠ volume_new`: the older snapshot's volume is NOT
treated as 0 in the delta. -/
theorem computeVolRow_crossday_delta_uses_old :
    computeVolRow true (1/100000)
      { optionType := "CALL", stockChange := 2/100, lastPriceNew := 10,
        lastPriceOld := 1, volumeNew := 4010, volumeOld := 5, marketCap := 0 }
      = some "买 Call，看涨" ∧
    volumeChange
      { optionType := "CALL", stockChange := 2/100, lastPriceNew := 10,
        lastPriceOld := 1, volumeNew := 4010, volumeOld := 5, marketCap := 0 }
      = 4005 := by
  constructor
  · norm_num [computeVolRow, volumeChangePct, volumeChange, volOptionChange,
      optionPriceChange, pandasDiv, PVal.mul100, PVal.fillna0, PVal.leQ,
      PVal.gtQ, PVal.ltQ, amountThresholdVol, volSignal]
  · norm_num [volumeChange]

/-- C4 counterexample: with `|oi_change| = 2000 > 1000` (significant) and
option price change exactly 0 (`lastPrice_new = lastPrice_old = 50`), the
relaxed non-strict direction tests both hold, and the row is NOT flat: it
yields the signal "多头买 Call，看涨". -/
theorem computeOiRow_relaxed_zero_change_signal :
    computeOiRow
      { optionType := "CALL", stockChange := 2/100, lastPriceNew := 50,
        lastPriceOld := 50, oiNew := 2000, oiOld := 0 }
      = some "多头买 Call，看涨" ∧
    oiOptionChange
      { optionType := "CALL", stockChange := 2/100, lastPriceNew := 50,
        lastPriceOld := 50, oiNew := 2000, oiOld := 0 }
      = .fin 0 := by
  constructor
  · norm_num [computeOiRow, oiChange, oiOptionChange, optionPriceChange,
      pandasDiv, PVal.fillna0, PVal.geQ, PVal.leQ, PVal.gtQ, PVal.ltQ,
      amountThresholdOi, oiSignal]
  · norm_num [oiOptionChange, optionPriceChange, pandasDiv, PVal.fillna0]

/-- C5 counterexample: with `price_old = 0` and `price_new = 2` the
computed `option_price_change` is +inf, not the defined value 0: the
pandas division produces an infinity that `fillna(0)` does not replace. -/
theorem optionPriceChange_zero_prior_infinite :
    optionPriceChange 2 0 = .posinf ∧ PVal.posinf ≠ PVal.fin 0 := by
  refine ⟨?_, by simp⟩
  norm_num [optionPriceChange, pandasDiv, PVal.fillna0]

/-- Shared gate lemma: an OI row whose amount does not strictly exceed
5,000,000 is skipped. -/
theorem computeOiRow_amount_le (r : OiRow)
    (h : amountThresholdOi r ≤ 5000000) : computeOiRow r = none := by
  simp [computeOiRow, h]

/-- Shared gate lemma: a volume row whose amount does not strictly exceed
2,000,000 is skipped. -/
theorem computeVolRow_amount_le (cd : Bool) (q : ℚ) (r : VolRow)
    (h : amountThresholdVol r ≤ 2000000) : computeVolRow cd q r = none := by
  simp only [computeVolRow]
  split
  · rfl
  split
  · rfl
  split
  · rfl
  rfl

/-- C2 (amended): the cross-day market-cap ratio gate only ever applies
when the market cap is known and positive.  When `market_cap ≤ 0` (symbol
absent from the table, or the table missing) the gate is skipped — the
configured ratio has no effect on the outcome, so the record is NOT
rejected for its unknown market cap.  The gate rejects exactly the rows
with `volume_old = 0`, `market_cap > 0` and
`amount_threshold / market_cap ≤ ratio`. -/
theorem computeVolRow_marketcap_gate (cd : Bool) (q₁ q₂ : ℚ) (r : VolRow) :
    (r.marketCap ≤ 0 → computeVolRow cd q₁ r = computeVolRow cd q₂ r) ∧
    (r.volumeOld = 0 → 0 < r.marketCap →
      amountThresholdVol r / r.marketCap ≤ q₁ →
      computeVolRow cd q₁ r = none) := by
  constructor
  · intro h
    have hc : ¬ (0 : ℚ) < r.marketCap := not_lt.mpr h
    simp [computeVolRow, hc]
  · intro h0 hc hr
    simp only [computeVolRow]
    split
    · rfl
    split
    · rfl
    split
    · rfl
    split
    · rfl
    split
    · rfl
    · rename_i h5
      exact absurd ⟨h0, hc, hr⟩ h5

/-- C2 witness. -/
theorem computeVolRow_marketcap_gate_witness :
    computeVolRow true (1/100000)
      { optionType := "CALL", stockChange := 2/100, lastPriceNew := 10,
        lastPriceOld := 1, volumeNew := 4000, volumeOld := 0,
        marketCap := 1000000000000 }
      = none :=
  (computeVolRow_marketcap_gate true (1/100000) 0
    { optionType := "CALL", stockChange := 2/100, lastPriceNew := 10,
      lastPriceOld := 1, volumeNew := 4000, volumeOld := 0,
      marketCap := 1000000000000 }).2
    rfl (by norm_num) (by norm_num [amountThresholdVol, volumeChange])

/-- C3 (amended): in a cross-day run, rows whose volume is identical in
both snapshots are dropped; for the remaining rows the delta is
`volume_new - volume_old` computed from the ACTUAL older volume (not from
0); the older volume is treated as absent only in the percentage, which is
forced to 100 when `volume_old = 0` and `volume_new > 0`. -/
theorem computeVolRow_crossday_rule (q : ℚ) (r : VolRow) :
    (r.volumeNew = r.volumeOld → computeVolRow true q r = none) ∧
    volumeChange r = r.volumeNew - r.volumeOld ∧
    (r.volumeOld = 0 → 0 < r.volumeNew → volumeChangePct true r = .fin 100) := by
  refine ⟨?_, rfl, ?_⟩
  · intro h
    simp [computeVolRow, h]
  · intro h0 hn
    simp [volumeChangePct, h0, hn]

/-- C3 witness. -/
theorem computeVolRow_crossday_rule_witness :
    computeVolRow true (1/100000)
      { optionType := "CALL", stockChange := 2/100, lastPriceNew := 10,
        lastPriceOld := 1, volumeNew := 7, volumeOld := 7, marketCap := 0 }
      = none ∧
    volumeChangePct true
      { optionType := "CALL", stockChange := 2/100, lastPriceNew := 10,
        lastPriceOld := 1, volumeNew := 4000, volumeOld := 0, marketCap := 0 }
      = .fin 100 :=
  ⟨(computeVolRow_crossday_rule (1/100000)
      { optionType := "CALL", stockChange := 2/100, lastPriceNew := 10,
        lastPriceOld := 1, volumeNew := 7, volumeOld := 7, marketCap := 0 }).1
      rfl,
   (computeVolRow_crossday_rule (1/100000)
      { optionType := "CALL", stockChange := 2/100, lastPriceNew := 10,
        lastPriceOld := 1, volumeNew := 4000, volumeOld := 0,
        marketCap := 0 }).2.2 rfl (by norm_num)⟩

/-- C4 (amended): the direction tests are strict when `|oi_change| ≤ 1000`:
stock change exactly ±1% (in any regime, since the stock test is never
relaxed) and option change exactly ±5% in the non-significant regime
classify as flat and yield no signal.  But when `|oi_change| > 1000` the
option tests are relaxed to the NON-strict `≥ 0` / `≤ 0`, so an option
price change of exactly 0 satisfies both relaxed tests and does yield a
signal when the other direction flags fire. -/
theorem computeOiRow_boundary_policy (r : OiRow) :
    ((r.stockChange = 1/100 ∨ r.stockChange = -(1/100)) →
      computeOiRow r = none) ∧
    (|oiChange r| ≤ 1000 →
      (oiOptionChange r = .fin (5/100) ∨ oiOptionChange r = .fin (-(5/100))) →
      computeOiRow r = none) ∧
    (1000 < |oiChange r| → oiOptionChange r = .fin 0 →
      r.optionType = "CALL" → 1/100 < r.stockChange → 0 < oiChange r →
      5000000 < amountThresholdOi r →
      computeOiRow r = some "多头买 Call，看涨") := by
  refine ⟨?_, ?_, ?_⟩
  · intro h
    have hsu : ¬ r.stockChange > 1/100 := by
      rcases h with h | h <;> rw [h] <;> norm_num
    have hsd : ¬ r.stockChange < -(1/100) := by
      rcases h with h | h <;> rw [h] <;> norm_num
    unfold computeOiRow
    rw [decide_eq_false hsu, decide_eq_false hsd, oiSignal_no_stock, ite_self]
  · intro hs hoc
    have h1 : ¬ (1000 : ℚ) < |oiChange r| := not_lt.mpr hs
    rcases hoc with hoc | hoc
    · have hou : (oiOptionChange r).gtQ (5/100) = false := by
        rw [hoc]; norm_num [PVal.gtQ]
      have hod : (oiOptionChange r).ltQ (-(5/100)) = false := by
        rw [hoc]; norm_num [PVal.ltQ]
      unfold computeOiRow
      rw [if_neg h1, if_neg h1, hou, hod, oiSignal_no_option, ite_self]
    · have hou : (oiOptionChange r).gtQ (5/100) = false := by
        rw [hoc]; norm_num [PVal.gtQ]
      have hod : (oiOptionChange r).ltQ (-(5/100)) = false := by
        rw [hoc]; norm_num [PVal.ltQ]
      unfold computeOiRow
      rw [if_neg h1, if_neg h1, hou, hod, oiSignal_no_option, ite_self]
  · intro h1 h0 ht hsu hup hamt
    unfold computeOiRow
    rw [if_neg (not_le.mpr hamt), if_pos h1, if_pos h1, h0, ht,
      decide_eq_true hsu, decide_eq_true hup]
    simp [oiSignal, PVal.geQ]

/-- C4 witness. -/
theorem computeOiRow_boundary_policy_witness :
    computeOiRow
      { optionType := "CALL", stockChange := 1/100, lastPriceNew := 100,
        lastPriceOld := 50, oiNew := 5000, oiOld := 0 } = none ∧
    computeOiRow
      { optionType := "CALL", stockChange := 2/100, lastPriceNew := 105,
        lastPriceOld := 100, oiNew := 500, oiOld := 0 } = none ∧
    computeOiRow
      { optionType := "CALL", stockChange := 2/100, lastPriceNew := 50,
        lastPriceOld := 50, oiNew := 2000, oiOld := 0 }
      = some "多头买 Call，看涨" :=
  ⟨(computeOiRow_boundary_policy
      { optionType := "CALL", stockChange := 1/100, lastPriceNew := 100,
        lastPriceOld := 50, oiNew := 5000, oiOld := 0 }).1 (Or.inl rfl),
   (computeOiRow_boundary_policy
      { optionType := "CALL", stockChange := 2/100, lastPriceNew := 105,
        lastPriceOld := 100, oiNew := 500, oiOld := 0 }).2.1
      (by norm_num [oiChange])
      (Or.inl (by norm_num [oiOptionChange, optionPriceChange, pandasDiv,
        PVal.fillna0])),
   (computeOiRow_boundary_policy
      { optionType := "CALL", stockChange := 2/100, lastPriceNew := 50,
        lastPriceOld := 50, oiNew := 2000, oiOld := 0 }).2.2
      (by norm_num [oiChange])
      (by norm_num [oiOptionChange, optionPriceChange, pandasDiv, PVal.fillna0])
      rfl (by norm_num) (by norm_num [oiChange])
      (by norm_num [amountThresholdOi, oiChange])⟩

/-- C5 (amended): `option_price_change = (price_new − price_old) /
price_old` when `price_old ≠ 0`.  When `price_old = 0` the value is the
defined 0 only if `price_new` is also 0 (the `0/0` NaN is filled);
otherwise the pandas division leaves +inf (`price_new > 0`) or -inf
(`price_new < 0`).  No branch raises: classification stays total. -/
theorem optionPriceChange_total_cases (a b : ℚ) :
    (b ≠ 0 → optionPriceChange a b = .fin ((a - b) / b)) ∧
    (b = 0 → a = 0 → optionPriceChange a b = .fin 0) ∧
    (b = 0 → 0 < a → optionPriceChange a b = .posinf) ∧
    (b = 0 → a < 0 → optionPriceChange a b = .neginf) := by
  refine ⟨?_, ?_, ?_, ?_⟩
  · intro h
    simp [optionPriceChange, pandasDiv, h, PVal.fillna0]
  · intro hb ha
    simp [optionPriceChange, pandasDiv, hb, ha, PVal.fillna0]
  · intro hb ha
    simp [optionPriceChange, pandasDiv, hb, sub_zero, ha.ne', ha, PVal.fillna0]
  · intro hb ha
    simp [optionPriceChange, pandasDiv, hb, sub_zero, ha.ne,
      not_lt.mpr ha.le, PVal.fillna0]

/-- C5 witness. -/
theorem optionPriceChange_total_cases_witness :
    optionPriceChange 3 2 = .fin ((3 - 2) / 2) ∧
    optionPriceChange 0 0 = .fin 0 ∧
    optionPriceChange 2 0 = .posinf ∧
    optionPriceChange (-2) 0 = .neginf :=
  ⟨(optionPriceChange_total_cases 3 2).1 (by norm_num),
   (optionPriceChange_total_cases 0 0).2.1 rfl rfl,
   (optionPriceChange_total_cases 2 0).2.2.1 rfl (by norm_num),
   (optionPriceChange_total_cases (-2) 0).2.2.2 rfl (by norm_num)⟩

/-- C6 (confirmed): for a held symbol with signals this cycle and
`bullish > 0` and `bearish > 0`, `bearish ≥ 3` forces a sell regardless of
the bullish count; otherwise the engine sells iff `bullish ≤ bearish`.
In particular (1,3), (3,3) and (5,3) all sell. -/
theorem shouldSell_mixed_signal_precedence (bullish bearish : ℕ) (q : ℚ)
    (hb : 0 < bullish) (he : 0 < bearish) :
    (3 ≤ bearish → shouldSellDecision (some (bullish, bearish)) q = true) ∧
    (bearish < 3 →
      (shouldSellDecision (some (bullish, bearish)) q = true ↔
        bullish ≤ bearish)) ∧
    shouldSellDecision (some (1, 3)) q = true ∧
    shouldSellDecision (some (3, 3)) q = true ∧
    shouldSellDecision (some (5, 3)) q = true := by
  refine ⟨?_, ?_, ?_, ?_, ?_⟩
  · intro h3
    simp [shouldSellDecision, hb, he, h3]
  · intro h3
    simp only [shouldSellDecision]
    rw [if_pos ⟨hb, he⟩, if_neg (by omega)]
    by_cases hc : bullish > bearish
    · rw [if_pos hc]
      simp
      omega
    · rw [if_neg hc]
      simp
      omega
  · simp [shouldSellDecision]
  · simp [shouldSellDecision]
  · simp [shouldSellDecision]

/-- C6 witness. -/
theorem shouldSell_mixed_signal_precedence_witness :
    shouldSellDecision (some (1, 3)) 0 = true ∧
    shouldSellDecision (some (2, 2)) 0 = true ∧
    shouldSellDecision (some (3, 2)) 0 = false :=
  ⟨(shouldSell_mixed_signal_precedence 1 3 0 (by norm_num) (by norm_num)).1
    (by norm_num),
   ((shouldSell_mixed_signal_precedence 2 2 0 (by norm_num) (by norm_num)).2.1
    (by norm_num)).mpr (by norm_num),
   by
    have h := (shouldSell_mixed_signal_precedence 3 2 0 (by norm_num)
      (by norm_num)).2.1 (by norm_num)
    rw [Bool.eq_false_iff]
    intro hc
    exact absurd (h.mp hc) (by norm_num)⟩

/-- C7 (confirmed): both ThresholdFilter gates are strict: the OI variant
emits a row only when `amount_threshold > 5,000,000` and skips any row
with `amount_threshold ≤ 5,000,000` (so exact equality is rejected); the
volume variant likewise with 2,000,000. -/
theorem amount_gates_strict (ro : OiRow) (rv : VolRow) (cd : Bool) (q : ℚ) :
    (amountThresholdOi ro ≤ 5000000 → computeOiRow ro = none) ∧
    (∀ s, computeOiRow ro = some s → 5000000 < amountThresholdOi ro) ∧
    (amountThresholdVol rv ≤ 2000000 → computeVolRow cd q rv = none) ∧
    (∀ s, computeVolRow cd q rv = some s → 2000000 < amountThresholdVol rv) := by
  refine ⟨computeOiRow_amount_le ro, ?_, computeVolRow_amount_le cd q rv, ?_⟩
  · intro s hs
    by_contra hc
    rw [computeOiRow_amount_le ro (not_lt.mp hc)] at hs
    exact Option.noConfusion hs
  · intro s hs
    by_contra hc
    rw [computeVolRow_amount_le cd q rv (not_lt.mp hc)] at hs
    exact Option.noConfusion hs

/-- C7 witness: rows whose amount is exactly at the minimum are rejected
by both variants. -/
theorem amount_gates_strict_witness :
    amountThresholdOi
      { optionType := "CALL", stockChange := 2/100, lastPriceNew := 100,
        lastPriceOld := 50, oiNew := 500, oiOld := 0 } = 5000000 ∧
    computeOiRow
      { optionType := "CALL", stockChange := 2/100, lastPriceNew := 100,
        lastPriceOld := 50, oiNew := 500, oiOld := 0 } = none ∧
    amountThresholdVol
      { optionType := "CALL", stockChange := 2/100, lastPriceNew := 100,
        lastPriceOld := 50, volumeNew := 3300, volumeOld := 3100,
        marketCap := 0 } = 2000000 ∧
    computeVolRow false 0
      { optionType := "CALL", stockChange := 2/100, lastPriceNew := 100,
        lastPriceOld := 50, volumeNew := 3300, volumeOld := 3100,
        marketCap := 0 } = none :=
  ⟨by norm_num [amountThresholdOi, oiChange],
   (amount_gates_strict
      { optionType := "CALL", stockChange := 2/100, lastPriceNew := 100,
        lastPriceOld := 50, oiNew := 500, oiOld := 0 }
      { optionType := "CALL", stockChange := 2/100, lastPriceNew := 100,
        lastPriceOld := 50, volumeNew := 3300, volumeOld := 3100,
        marketCap := 0 } false 0).1
     (by norm_num [amountThresholdOi, oiChange]),
   by norm_num [amountThresholdVol, volumeChange],
   (amount_gates_strict
      { optionType := "CALL", stockChange := 2/100, lastPriceNew := 100,
        lastPriceOld := 50, oiNew := 500, oiOld := 0 }
      { optionType := "CALL", stockChange := 2/100, lastPriceNew := 100,
        lastPriceOld := 50, volumeNew := 3300, volumeOld := 3100,
        marketCap := 0 } false 0).2.2.1
     (by norm_num [amountThresholdVol, volumeChange])⟩

/-- C8 (confirmed): in a cross-day run, a contract with `volume_old = 0`
and `volume_new > 0` gets `volume_change_pct = 100`; a contract with
`volume_old > 0` gets the ordinary percentage change. -/
theorem crossday_pct_hundred (r : VolRow) :
    (r.volumeOld = 0 → 0 < r.volumeNew → volumeChangePct true r = .fin 100) ∧
    (0 < r.volumeOld →
      volumeChangePct true r = .fin (volumeChange r / r.volumeOld * 100)) := by
  constructor
  · intro h0 hn
    simp [volumeChangePct, h0, hn]
  · intro h
    simp [volumeChangePct, h, h.ne']

/-- C8 witness. -/
theorem crossday_pct_hundred_witness :
    volumeChangePct true
      { optionType := "PUT", stockChange := 0, lastPriceNew := 1,
        lastPriceOld := 1, volumeNew := 50, volumeOld := 0, marketCap := 0 }
      = .fin 100 ∧
    volumeChangePct true
      { optionType := "PUT", stockChange := 0, lastPriceNew := 1,
        lastPriceOld := 1, volumeNew := 30, volumeOld := 20, marketCap := 0 }
      = .fin (volumeChange
          { optionType := "PUT", stockChange := 0, lastPriceNew := 1,
            lastPriceOld := 1, volumeNew := 30, volumeOld := 20,
            marketCap := 0 } / 20 * 100) :=
  ⟨(crossday_pct_hundred
      { optionType := "PUT", stockChange := 0, lastPriceNew := 1,
        lastPriceOld := 1, volumeNew := 50, volumeOld := 0,
        marketCap := 0 }).1 rfl (by norm_num),
   (crossday_pct_hundred
      { optionType := "PUT", stockChange := 0, lastPriceNew := 1,
        lastPriceOld := 1, volumeNew := 30, volumeOld := 20,
        marketCap := 0 }).2 (by norm_num)⟩

/-- C9 (confirmed): `_amount_tier` is a total, monotonic step function
with the stated boundaries: `≤ 5,000,000` maps to the lowest tier,
`≤ 10,000,000` to "5M-10M", `≤ 50,000,000` to "10M-50M", and all larger
amounts to ">50M"; it is a pure function of its argument. -/
theorem amountTier_steps_monotone (x y : ℚ) :
    amountTier x = tierName (tierIdx x) ∧
    tierIdx x ≤ 3 ∧
    (x ≤ 5000000 → amountTier x = "<=5M") ∧
    (5000000 < x → x ≤ 10000000 → amountTier x = "5M-10M") ∧
    (10000000 < x → x ≤ 50000000 → amountTier x = "10M-50M") ∧
    (50000000 < x → amountTier x = ">50M") ∧
    (x ≤ y → tierIdx x ≤ tierIdx y) := by
  refine ⟨?_, ?_, ?_, ?_, ?_, ?_, ?_⟩
  · simp only [amountTier, tierIdx]
    split_ifs <;> rfl
  · simp only [tierIdx]
    split_ifs <;> omega
  · intro h
    unfold amountTier
    rw [if_pos h]
  · intro h1 h2
    unfold amountTier
    rw [if_neg (by linarith), if_pos h2]
  · intro h1 h2
    unfold amountTier
    rw [if_neg (by linarith), if_neg (by linarith), if_pos h2]
  · intro h1
    unfold amountTier
    rw [if_neg (by linarith), if_neg (by linarith), if_neg (by linarith)]
  · intro hxy
    simp only [tierIdx]
    split_ifs <;> first | omega | (exfalso; linarith)

/-- C9 witness. -/
theorem amountTier_steps_monotone_witness :
    amountTier 7000000 = "5M-10M" ∧ amountTier 60000000 = ">50M" ∧
    tierIdx 7000000 ≤ tierIdx 60000000 :=
  ⟨(amountTier_steps_monotone 7000000 60000000).2.2.2.1 (by norm_num)
     (by norm_num),
   (amountTier_steps_monotone 60000000 60000000).2.2.2.2.2.1 (by norm_num),
   (amountTier_steps_monotone 7000000 60000000).2.2.2.2.2.2 (by norm_num)⟩

/-- C10 (confirmed): every emitted volume-variant record passed the hidden
base filters: the new volume strictly exceeds 3000 and the volume change
percentage strictly exceeds 30, in addition to the 2,000,000 amount
gate. -/
theorem computeVolRow_emitted_base_filters (cd : Bool) (q : ℚ) (r : VolRow)
    (s : String) (h : computeVolRow cd q r = some s) :
    3000 < r.volumeNew ∧ (volumeChangePct cd r).gtQ 30 = true ∧
    2000000 < amountThresholdVol r := by
  simp only [computeVolRow] at h
  split at h
  · simp at h
  split at h
  · simp at h
  rename_i h2
  split at h
  · simp at h
  rename_i h3
  split at h
  · simp at h
  rename_i h4
  refine ⟨not_le.mp h2, ?_, not_le.mp h4⟩
  have h3' : (volumeChangePct cd r).leQ 30 = false := by simpa using h3
  exact leQ_false_gtQ _ _ (volumeChangePct_ne_nan cd r) h3'

/-- C10 witness. -/
theorem computeVolRow_emitted_base_filters_witness :
    3000 < (4000 : ℚ) ∧
    (volumeChangePct false
      { optionType := "CALL", stockChange := 2/100, lastPriceNew := 10,
        lastPriceOld := 1, volumeNew := 4000, volumeOld := 1000,
        marketCap := 0 }).gtQ 30 = true ∧
    2000000 < amountThresholdVol
      { optionType := "CALL", stockChange := 2/100, lastPriceNew := 10,
        lastPriceOld := 1, volumeNew := 4000, volumeOld := 1000,
        marketCap := 0 } :=
  computeVolRow_emitted_base_filters false (1/100000)
    { optionType := "CALL", stockChange := 2/100, lastPriceNew := 10,
      lastPriceOld := 1, volumeNew := 4000, volumeOld := 1000,
      marketCap := 0 } "买 Call，看涨"
    (by norm_num [computeVolRow, volumeChangePct, volumeChange,
      volOptionChange, optionPriceChange, pandasDiv, PVal.mul100,
      PVal.fillna0, PVal.leQ, PVal.gtQ, PVal.ltQ, amountThresholdVol,
      volSignal])
